import Mathlib

/-!
Verification of the LangChain serializer registry (`ads/llm/serialize.py`),
the Aqua model facade (`ads/aqua/model.py`), and the Spark session singleton
(`ads/feature_store/common/spark_session_singleton.py`) of the
accelerated-data-science repository, against its natural-language
specification.

Python values, dictionaries and class instances are shallowly embedded:
JSON-like documents become the inductive `JVal`, Python class instances
relevant to the serializer become `PyObj` (a type tag plus a payload plus the
boolean attributes the dispatch code inspects), calls into external libraries
(LangChain, the OCI SDK) become explicitly labelled constructors or oracle
parameters, and raised exceptions become `Except` errors.
-/

namespace Serialize

/-- A JSON-like value, the shape of the configuration trees handled by
`dump` and `load` in `ads/llm/serialize.py`. -/
inductive JVal where
  | null
  | str (s : String)
  | num (n : Int)
  | bool (b : Bool)
  | arr (items : List JVal)
  | dict (fields : List (String × JVal))

/-- First-occurrence lookup in an association list with string keys; the
embedding of `d[k]` / `k in d` on a Python dict (keys are unique there, so
first occurrence is the occurrence). -/
def lookupStr {α : Type} : List (String × α) → String → Option α
  | [], _ => none
  | e :: rest, k => if e.1 = k then some e.2 else lookupStr rest k

/-- Removal of every entry bound to the given key: the effect of
`d.pop(k)` / key replacement on a Python dict (the popped value itself is
read with `lookupStr`). -/
def popKey {α : Type} (fs : List (String × α)) (k : String) :
    List (String × α) :=
  fs.filter (fun kv => kv.1 != k)

/-- `d[k] = v` on a string-keyed dict: any previous binding of `k` is
replaced by the new one. -/
def setStr {α : Type} (fs : List (String × α)) (k : String) (v : α) :
    List (String × α) :=
  popKey fs k ++ [(k, v)]

/-- The Python classes the serializer dispatch distinguishes.  The four
registered classes are the keys of `custom_serialization`
(`serialize.py` lines 166-171); `retrievalQACustom` stands for a strict
subclass of `RetrievalQA` that is itself not a key of the table, and
`plainObject` for any class unrelated to the registered ones. -/
inductive PyType where
  | guardrailSequence
  | customGuardrailBase
  | runnableParallel
  | retrievalQA
  | retrievalQACustom
  | plainObject
deriving DecidableEq, Repr

/-- `isinstance(obj_of_type_t, c)`: Python's instance check, true on the
exact class and on superclasses.  The only non-trivial edge in the model is
`retrievalQACustom <: retrievalQA`; the four registered classes are
pairwise unrelated in the source. -/
def isInstanceOf (t c : PyType) : Bool :=
  t == c || (t == .retrievalQACustom && c == .retrievalQA)

/-- The retriever/vector-store structure of a `RetrievalQA` object, as
consumed by `RetrievalQASerializer.save`: the dict produced by
`obj.dict()`, the retriever's `__dict__`, the class name of the
retriever's vector store, and the vector store itself. -/
structure RetrievalQAObj where
  dictRepr : List (String × JVal)
  retrieverFields : List (String × JVal)
  vectorstoreClass : String
  vectorstorePayload : JVal

/-- An empty retriever/vector-store structure, for objects that are not
`RetrievalQA` instances. -/
def emptyRQA : RetrievalQAObj :=
  { dictRepr := [], retrieverFields := []
    vectorstoreClass := "", vectorstorePayload := .null }

/-- A Python object as seen by `dump` / `default`: its class, its structural
content, and the attributes the dispatch code tests.
`serializable` is `isinstance(obj, Serializable)`, `lcSerializable` is
`obj.is_lc_serializable()`, `hasSave` is `hasattr(obj, "save")`, and
`nestedUnserializable` records whether `json.dumps` raises a `TypeError`
while encoding some nested property of the object (the failure mode the
source comments on in `dump`, lines 333-336).  `rqa` is the
retriever/vector-store structure, meaningful for `RetrievalQA`
instances. -/
structure PyObj where
  ty : PyType
  payload : JVal
  serializable : Bool
  lcSerializable : Bool
  hasSave : Bool
  nestedUnserializable : Bool
  rqa : RetrievalQAObj

/-- Structural (content) equality of objects: same class and same payload.
Object identity and the incidental runtime attributes are not part of it. -/
def structEq (a b : PyObj) : Prop := a.ty = b.ty ∧ a.payload = b.payload

/-- Tag of `GuardrailSequence.type()`.  Modelled from the spec: the class
lives outside the available sources; only the tag's presence as a table key
and its distinctness matter. -/
def tagGuardrailSequence : String := "GuardrailSequence"

/-- Tag of `CustomGuardrailBase.type()`.  Modelled from the spec (class
outside the available sources). -/
def tagCustomGuardrailBase : String := "CustomGuardrailBase"

/-- Tag of `RunnableParallelSerializer.type()`.  Modelled from the spec
(class outside the available sources). -/
def tagRunnableParallel : String := "RunnableParallel"

/-- Tag of `RetrievalQASerializer.type()` (`serialize.py` line 132). -/
def tagRetrievalQA : String := "retrieval_qa"

/-- Modelled from the spec: the save function of a registered type produces a
tagged configuration tree carrying the object's structural content
("save(obj) -> tagged configuration tree").  The concrete bodies
(`GuardrailSequence.save`, `CustomGuardrailBase.save`,
`RunnableParallelSerializer.save`, and the LangChain internals behind
`RetrievalQASerializer.save`) live outside the available sources. -/
def saveWithTag (tag : String) (o : PyObj) : JVal :=
  .dict [("_type", .str tag), ("payload", o.payload)]

/-- Modelled from the spec: the load function of a registered type
reconstructs an object of that type from the tagged tree's content
("load(tree) -> object").  The reconstructed object is a fresh instance:
equal in structure, not in identity (its incidental attributes are the
class defaults). -/
def loadWithType (t : PyType) (v : JVal) : PyObj :=
  { ty := t
    payload := (match v with
      | .dict fs => (lookupStr fs "payload").getD .null
      | _ => .null)
    serializable := true
    lcSerializable := false
    hasSave := true
    nestedUnserializable := false
    rqa := emptyRQA }

/-- Python exceptions distinguished by the serializer code paths. -/
inductive PyErr where
  | typeError
  | keyError
  | notImplementedError
deriving DecidableEq, Repr

/-- The vector-store save table `vectordb_serialization`
(`serialize.py` line 123); as with a Python dict, key membership is what
the indexing and the `not in` check consult. -/
def vectordb_serialization : List String := ["OpenSearchVectorSearch", "FAISS"]

/-- Stand-in for `OpenSearchVectorDBSerializer.save` / `FaissSerializer.save`
output (their bodies run LangChain and client internals external to this
model; only the control flow of `RetrievalQASerializer.save` around them is
at stake). -/
def vectordbSave (cls : String) (payload : JVal) : List (String × JVal) :=
  [("_type", .str cls), ("store", payload)]

/-- The `retriever_kwargs` dict built by `RetrievalQASerializer.save`
(lines 146-150): the retriever's fields minus `tags`, `metadata` and
`vectorstore`. -/
def rqaRetrieverKwargs (r : RetrievalQAObj) : JVal :=
  .dict (r.retrieverFields.filter
    (fun kv => !(kv.1 == "tags" || kv.1 == "metadata" || kv.1 == "vectorstore")))

/-- The `vectordb` entry built by `RetrievalQASerializer.save`
(lines 151-156): `{"class": name}` updated with the vector-store
serializer's output. -/
def rqaVectordbConfig (r : RetrievalQAObj) : JVal :=
  .dict (("class", JVal.str r.vectorstoreClass)
    :: vectordbSave r.vectorstoreClass r.vectorstorePayload)

/-- The tree `RetrievalQASerializer.save` returns on success: `obj.dict()`
with the `retriever_kwargs` and `vectordb` keys set. -/
def rqaSaved (r : RetrievalQAObj) : List (String × JVal) :=
  setStr (setStr r.dictRepr "retriever_kwargs" (rqaRetrieverKwargs r))
    "vectordb" (rqaVectordbConfig r)

/-- `RetrievalQASerializer.save` (`serialize.py` lines 143-162): build
`retriever_kwargs` from the retriever's fields, record the vector-store
class, index `vectordb_serialization` with that class name — a `KeyError`
when the class is not a key — then merge the vector-store serializer's
output, and only after that check membership, raising
`NotImplementedError` on a miss. -/
def RetrievalQASerializer_save (obj : RetrievalQAObj) : Except PyErr JVal :=
  if obj.vectorstoreClass ∈ vectordb_serialization then
    if obj.vectorstoreClass ∈ vectordb_serialization then
      .ok (.dict (rqaSaved obj))
    else .error .notImplementedError
  else .error .keyError

/-- The value a registered deserializer returns: either a reconstructed ADS
object, or — for `RetrievalQASerializer.load` — the external
`load_chain_from_config(config, retriever=...)` call, recorded with the
chain configuration it receives (the saved dict minus `retriever_kwargs`
and `vectordb`), the vector-store class, the vector-store configuration
handed to the vector-store deserializer, and the retriever kwargs handed
to `as_retriever`. -/
inductive LoadedObj where
  | obj (o : PyObj)
  | legacyChainRetriever (config : List (String × JVal)) (vectordbClass : String)
      (vectordbConfig : JVal) (retrieverKwargs : JVal)

/-- `RetrievalQASerializer.load` (`serialize.py` lines 134-141): pop
`retriever_kwargs` (`KeyError` when absent), read
`config["vectordb"]["class"]` (`KeyError` when either key is absent,
`TypeError` when a non-dict is indexed or an unhashable value is used as a
key), index `vectordb_serialization` with the class (`KeyError` on a
miss), then delegate to the external vector-store deserializer,
`as_retriever` and `load_chain_from_config`. -/
def RetrievalQASerializer_load (config : JVal) : Except PyErr LoadedObj :=
  match config with
  | .dict fs =>
    match lookupStr fs "retriever_kwargs" with
    | none => .error .keyError
    | some rk =>
      match lookupStr (popKey fs "retriever_kwargs") "vectordb" with
      | none => .error .keyError
      | some (.dict vfs) =>
        (match lookupStr vfs "class" with
         | some (.str cls) =>
           if cls ∈ vectordb_serialization then
             .ok (.legacyChainRetriever
               (popKey (popKey fs "retriever_kwargs") "vectordb")
               cls (.dict vfs) rk)
           else .error .keyError
         | some (.arr _) => .error .typeError
         | some (.dict _) => .error .typeError
         | some _ => .error .keyError
         | none => .error .keyError)
      | some _ => .error .typeError
  | _ => .error .typeError

/-- The ordered save table `custom_serialization`
(`serialize.py` lines 166-171): class ↦ save function, in source order.
The first three bodies are modelled from the spec (their classes live
outside the available sources); the `RetrievalQA` entry is
`RetrievalQASerializer.save` from the source, which can raise. -/
def custom_serialization : List (PyType × (PyObj → Except PyErr JVal)) :=
  [(.guardrailSequence, fun o => .ok (saveWithTag tagGuardrailSequence o)),
   (.customGuardrailBase, fun o => .ok (saveWithTag tagCustomGuardrailBase o)),
   (.runnableParallel, fun o => .ok (saveWithTag tagRunnableParallel o)),
   (.retrievalQA, fun o => RetrievalQASerializer_save o.rqa)]

/-- The load table `custom_deserialization`
(`serialize.py` lines 175-180): tag ↦ load function.  The first three
bodies are modelled from the spec; the `retrieval_qa` entry is
`RetrievalQASerializer.load` from the source. -/
def custom_deserialization : List (String × (JVal → Except PyErr LoadedObj)) :=
  [(tagGuardrailSequence, fun v => .ok (.obj (loadWithType .guardrailSequence v))),
   (tagCustomGuardrailBase, fun v => .ok (.obj (loadWithType .customGuardrailBase v))),
   (tagRunnableParallel, fun v => .ok (.obj (loadWithType .runnableParallel v))),
   (tagRetrievalQA, RetrievalQASerializer_load)]

/-- The exact-type keys of the save table. -/
def registeredTypes : List PyType := custom_serialization.map Prod.fst

/-- The `for super_class, save_fn in custom_serialization.items()` loop of
`dump` (lines 322-324) and `default` (lines 290-292): the first entry whose
class the object is an instance of. -/
def firstSaveMatch : List (PyType × (PyObj → Except PyErr JVal)) → PyObj →
    Option (PyType × (PyObj → Except PyErr JVal))
  | [], _ => none
  | e :: rest, o => if isInstanceOf o.ty e.1 then some e else firstSaveMatch rest o

/-- The possible successful outcomes of `dump` / `default`, labelled by which
code path produced them: a registered entry's save function, the generic
`obj.to_json()` of a LangChain-serializable object, or the legacy
save-to-temp-JSON path `__save`. -/
inductive Dumped where
  | custom (cls : PyType) (v : JVal)
  | toJson (o : PyObj)
  | legacy (o : PyObj)

/-- `default(obj)` (`serialize.py` lines 272-295): try the registered table
by `isinstance` in order (an exception raised by the selected save function
propagates), then `obj.to_json()` for LangChain-serializable objects, else
raise `TypeError`. -/
def default (o : PyObj) : Except PyErr Dumped :=
  match firstSaveMatch custom_serialization o with
  | some e => Except.map (Dumped.custom e.1) (e.2 o)
  | none =>
    if o.serializable && o.lcSerializable then .ok (.toJson o)
    else .error .typeError

/-- `json.loads(json.dumps(obj, default=default))` as called by `dump`
(line 338): the encoder hands the class instance to `default`, and may still
raise `TypeError` on a nested non-serializable property even when `default`
succeeded on the top object (`nestedUnserializable`). -/
def json_dumps (o : PyObj) : Except PyErr Dumped :=
  match default o with
  | .ok d => if o.nestedUnserializable then .error .typeError else .ok d
  | .error e => .error e

/-- `dump(obj)` (`serialize.py` lines 314-342): the registered table by
`isinstance` in order; else the legacy `__save` for a `Serializable` that is
not lc-serializable but has `save`; else `json.dumps` via `default`, falling
back to `__save` on `TypeError` when the object is `Serializable` with
`save`, and re-raising otherwise. -/
def dump (o : PyObj) : Except PyErr Dumped :=
  match firstSaveMatch custom_serialization o with
  | some e => Except.map (Dumped.custom e.1) (e.2 o)
  | none =>
    if o.serializable && !o.lcSerializable && o.hasSave then .ok (.legacy o)
    else
      match json_dumps o with
      | .ok d => .ok d
      | .error ex =>
        if o.serializable && o.hasSave then .ok (.legacy o) else .error ex

/-- The result of `load` / `_load`, with calls out of the registry labelled:
`registered` is the invocation of a registered deserializer on its tree
(carrying its result, or the exception it raised), `legacyChain` marks a
tree handed whole to `load_chain_from_config`, `lcLoad` a tree handed whole
to LangChain's `load`, `raw` a non-container value returned unchanged, and
`revived` the `Reviver` applied to a dict whose values were loaded first. -/
inductive RVal where
  | registered (tag : String) (result : Except PyErr LoadedObj)
  | legacyChain (v : JVal)
  | lcLoad (v : JVal)
  | raw (v : JVal)
  | revived (fields : List (String × RVal))
  | listOf (items : List RVal)

/-- `load(obj)` (`serialize.py` lines 227-239): a top-level dict carrying a
registered `_type` goes to its registered deserializer; a dict carrying any
other `_type` value goes whole to the legacy `load_chain_from_config`;
everything else goes whole to LangChain's `load`. -/
def load (v : JVal) : RVal :=
  match v with
  | .dict fs =>
    match lookupStr fs "_type" with
    | some (.str tag) =>
      match lookupStr custom_deserialization tag with
      | some loadFn => .registered tag (loadFn (.dict fs))
      | none => .legacyChain (.dict fs)
    | some _ => .legacyChain (.dict fs)
    | none => .lcLoad (.dict fs)
  | v => .lcLoad v

mutual
/-- The inner helper `_load` defined inside `load`
(`serialize.py` lines 212-225): a dict with a registered `_type` goes to its
registered deserializer; any other dict has every value loaded recursively
and the reviver applied to the result ("Need to revive leaf nodes before
reviving this node"); lists are loaded elementwise; leaves are returned
unchanged.  `load` defines this helper but never invokes it. -/
def _load : JVal → RVal
  | .dict fs =>
    match lookupStr fs "_type" with
    | some (.str tag) =>
      match lookupStr custom_deserialization tag with
      | some loadFn => .registered tag (loadFn (.dict fs))
      | none => .revived (_loadFields fs)
    | some _ => .revived (_loadFields fs)
    | none => .revived (_loadFields fs)
  | .arr items => .listOf (_loadList items)
  | v => .raw v

/-- `{k: _load(v) for k, v in obj.items()}` (line 221). -/
def _loadFields : List (String × JVal) → List (String × RVal)
  | [] => []
  | (k, v) :: rest => (k, _load v) :: _loadFields rest

/-- `[_load(o) for o in obj]` (line 224). -/
def _loadList : List JVal → List RVal
  | [] => []
  | v :: rest => _load v :: _loadList rest
end

mutual
/-- Whether a load result anywhere contains the invocation of a registered
deserializer. -/
def hasRegistered : RVal → Bool
  | .registered _ _ => true
  | .revived fields => hasRegisteredFields fields
  | .listOf items => hasRegisteredList items
  | _ => false

def hasRegisteredFields : List (String × RVal) → Bool
  | [] => false
  | (_, v) :: rest => hasRegistered v || hasRegisteredFields rest

def hasRegisteredList : List RVal → Bool
  | [] => false
  | v :: rest => hasRegistered v || hasRegisteredList rest
end

/-- Whether `dump` succeeded through a registered entry's save function. -/
def dumpIsCustom : Except PyErr Dumped → Bool
  | .ok (.custom _ _) => true
  | _ => false

/-- Whether `dump` succeeded through one of the generic fallbacks
(`to_json` or the legacy save-to-temp-JSON path). -/
def dumpIsGenericFallback : Except PyErr Dumped → Bool
  | .ok (.toJson _) => true
  | .ok (.legacy _) => true
  | _ => false

/-- Whether `dump` raised `TypeError`. -/
def dumpIsTypeError : Except PyErr Dumped → Bool
  | .error .typeError => true
  | _ => false

end Serialize

namespace Aqua

/-- `UNKNOWN` from `ads/aqua/utils.py` (the module is outside the available
sources); only its role as the default for a missing tag matters. -/
def UNKNOWN : String := ""

/-- A single-quote character, used verbatim inside the RQS query string. -/
def squote : String := String.singleton (Char.ofNat 39)

/-- An OCI model record as returned by the Data Science SDK (`get_model`,
`list_models`) or by resource search: the fields `ads/aqua/model.py`
reads. -/
structure OciModel where
  id : String
  compartment_id : String
  project_id : String
  display_name : String
  time_created : String
  freeform_tags : List (String × String)
  defined_tags : List (String × String)

/-- The error raised by the OCI SDK (`oci.exceptions.ServiceError`): the
fields the Aqua code reads when wrapping it (`se.request_id`, `se.code`). -/
structure SdkError where
  request_id : String
  code : Nat
deriving DecidableEq, Repr

/-- Modelled from the spec: the fixed set of HTTP-status-tagged Aqua
exception kinds raised by the facade ("client error, service error").  The
classes `AquaServiceError` and `AquaClientError` are imported by
`ads/aqua/model.py` from `ads.aqua.exception` but their definitions are
outside the available sources (`exception.py` holds only the `AquaError`
base and other kinds); they are modelled as `AquaError` subclasses, the
service error carrying the SDK error's request id and status code as the
call sites pass them, the client error carrying a reason message with the
default client status 400. -/
inductive AquaExc where
  | serviceError (opc_request_id : String) (status_code : Nat)
  | clientError (reason : String)
deriving DecidableEq, Repr

/-- The HTTP status carried by an Aqua exception kind. -/
def AquaExc.status : AquaExc → Nat
  | .serviceError _ c => c
  | .clientError _ => 400

/-- The user-facing message carried by an Aqua exception kind (for the
service error, the request id is the payload of the message). -/
def AquaExc.reason : AquaExc → String
  | .serviceError rid _ => rid
  | .clientError r => r

/-- `Tags.AQUA_TAG.value` (`ads/aqua/model.py` line 39). -/
def aquaTag : String := "OCI_AQUA"

/-- `AquaModelApp._if_show` (lines 272-278): the model's freeform tag keys
contain `OCI_AQUA` in either case. -/
def _if_show (m : OciModel) : Bool :=
  (m.freeform_tags.map Prod.fst).contains aquaTag
    || (m.freeform_tags.map Prod.fst).contains (aquaTag.toLower)

/-- Symbolic stand-in for `create_word_icon(model_name,
return_as_datauri=True)` (external helper). -/
def word_icon (name : String) : String := "icon:" ++ name

/-- Symbolic stand-in for `get_console_link(resource="models", ocid,
region)` (external helper). -/
def console_link (ocid region : String) : String :=
  "https://console/" ++ region ++ "/models/" ++ ocid

/-- `d.update(u)` on string-keyed dicts: entries of `u` override `d`. -/
def updateDict (d u : List (String × String)) : List (String × String) :=
  d.filter (fun kv => !((u.map Prod.fst).contains kv.1)) ++ u

/-- The summary record built by `AquaModelApp.list` / `process_model`
(`ads/aqua/model.py` lines 44-59 and 231-270). -/
structure AquaModelSummary where
  compartment_id : String
  icon : String
  id : String
  is_fine_tuned_model : Bool
  license : String
  name : String
  organization : String
  project_id : String
  tags : List (String × String)
  task : String
  time_created : String
  console_link : String
deriving DecidableEq, Repr

/-- The full model record returned by `AquaModelApp.get`
(`ads/aqua/model.py` lines 62-66). -/
structure AquaModel extends AquaModelSummary where
  model_card : String
deriving DecidableEq, Repr

/-- `AquaModelApp.process_model` (lines 231-270), with the `project_id`
the caller merges in (`list` passes `project_id or UNKNOWN`, `get` passes
the model's own project id).  `is_fine_tuned_model` follows Python
truthiness of `freeform_tags.get(...)`: present and non-empty. -/
def process_model (m : OciModel) (region : String) (project_id : String) :
    AquaModelSummary :=
  { compartment_id := m.compartment_id
    icon := word_icon m.display_name
    id := m.id
    is_fine_tuned_model :=
      (match Serialize.lookupStr m.freeform_tags "aqua_fine_tuned_model" with
       | some v => v != ""
       | none => false)
    license := (Serialize.lookupStr m.freeform_tags "license").getD UNKNOWN
    name := m.display_name
    organization :=
      (Serialize.lookupStr m.freeform_tags "organization").getD UNKNOWN
    project_id := project_id
    tags := updateDict m.defined_tags m.freeform_tags
    task := (Serialize.lookupStr m.freeform_tags "task").getD UNKNOWN
    time_created := m.time_created
    console_link := console_link m.id region }

/-- `condition_tags` (`ads/aqua/model.py` line 292). -/
def condition_tags : String :=
  "&& (freeformTags.key = " ++ squote ++ "OCI_AQUA" ++ squote ++
    " && freeformTags.key = " ++ squote ++ "aqua_fine_tuned_model" ++ squote ++ ")"

/-- `condition_lifecycle` (line 293). -/
def condition_lifecycle : String :=
  "&& lifecycleState = " ++ squote ++ "ACTIVE" ++ squote

/-- The structured search query built by `AquaModelApp._rqs` (line 294). -/
def rqsQuery (compartment_id : String) : String :=
  "query datasciencemodel resources where (compartmentId = " ++ squote ++
    compartment_id ++ squote ++ " " ++ condition_lifecycle ++ " " ++
    condition_tags ++ ")"

/-- `AquaModelApp._rqs` (lines 290-308): issue one structured search with
the built query, wrapping any SDK error as a service error.  The second
component records the queries actually sent to the SDK. -/
def _rqs (search : String → Except SdkError (List OciModel))
    (compartment_id : String) :
    Except AquaExc (List OciModel) × List String :=
  (match search (rqsQuery compartment_id) with
   | .ok rs => .ok rs
   | .error se => .error (.serviceError se.request_id se.code),
   [rqsQuery compartment_id])

/-- Python truthiness of an optional string argument. -/
def truthy : Option String → Bool
  | some s => s != ""
  | none => false

/-- `project_id or UNKNOWN`. -/
def orUnknown : Option String → String
  | some s => if s != "" then s else UNKNOWN
  | none => UNKNOWN

/-- `AquaModelApp.list` (lines 184-229): with a truthy compartment filter
the models come from `_rqs`, otherwise from the service-compartment
listing; every fetched model is turned into a summary — no `_if_show`
filtering happens here. -/
def list (search : String → Except SdkError (List OciModel))
    (service_models : List OciModel) (region : String)
    (compartment_id project_id : Option String) :
    Except AquaExc (List AquaModelSummary) :=
  let fetched : Except AquaExc (List OciModel) :=
    match compartment_id with
    | some c => if c != "" then (_rqs search c).1 else .ok service_models
    | none => .ok service_models
  match fetched with
  | .error e => .error e
  | .ok models =>
    .ok (models.map (fun m => process_model m region (orUnknown project_id)))

/-- `AquaModelApp.get` (lines 151-182): one `get_model` call, SDK errors
wrapped as a service error; a model failing `_if_show` raises a client
error; otherwise the full record is built (`model_card_of` stands in for
the external artifact read).  The second component records the model ids
requested from the SDK. -/
def get (get_model : String → Except SdkError OciModel)
    (model_card_of : String → String) (region : String) (model_id : String) :
    Except AquaExc AquaModel × List String :=
  (match get_model model_id with
   | .error se => .error (.serviceError se.request_id se.code)
   | .ok m =>
     if !(_if_show m) then
       .error (.clientError ("Target model " ++ m.id ++ " is not Aqua model."))
     else
       .ok { toAquaModelSummary := process_model m region m.project_id
             model_card := model_card_of m.id },
   [model_id])

/-- A data-science model record as handled by `AquaModelApp.create`. -/
structure DSModel where
  id : String
  compartment_id : String
  project_id : String
deriving DecidableEq, Repr

/-- The SDK-backed operations `AquaModelApp.create` performs, in order. -/
inductive CreateCall where
  | fromId (model_id : String)
  | downloadArtifact (model_id : String)
  | createModel
deriving DecidableEq, Repr

/-- `comparment_id or COMPARTMENT_OCID` (line 108). -/
def targetCompartment (comparment_id : Option String)
    (env_compartment : String) : String :=
  match comparment_id with
  | some c => if c != "" then c else env_compartment
  | none => env_compartment

/-- `project_id or PROJECT_OCID` (line 109). -/
def targetProject (project_id env_project : String) : String :=
  if project_id != "" then project_id else env_project

/-- `AquaModelApp.create` (lines 85-149): fetch the source model, return it
unchanged when it already lives in the target compartment and project,
otherwise download its artifact and create the copy; the whole body sits in
one `try` whose handler wraps any exception as a service error.  The three
`Except` parameters are the outcomes the SDK would give to the three
operations; the second component records the operations actually
performed. -/
def create (from_id : Except SdkError DSModel)
    (download : Except SdkError Unit) (create_res : Except SdkError DSModel)
    (model_id : String) (project_id : String) (comparment_id : Option String)
    (env_compartment env_project : String) :
    Except AquaExc DSModel × List CreateCall :=
  match from_id with
  | .error se =>
    (.error (.serviceError se.request_id se.code), [.fromId model_id])
  | .ok target =>
    if target.compartment_id == targetCompartment comparment_id env_compartment
        && target.project_id == targetProject project_id env_project then
      (.ok target, [.fromId model_id])
    else
      match download with
      | .error se =>
        (.error (.serviceError se.request_id se.code),
         [.fromId model_id, .downloadArtifact model_id])
      | .ok _ =>
        match create_res with
        | .error se =>
          (.error (.serviceError se.request_id se.code),
           [.fromId model_id, .downloadArtifact model_id, .createModel])
        | .ok cm =>
          (.ok cm, [.fromId model_id, .downloadArtifact model_id, .createModel])

/-- Whether a `create` outcome is a success or a wrapped service error (the
only terminations its `try` / `except` structure admits). -/
def okOrServiceError : Except AquaExc DSModel → Bool
  | .ok _ => true
  | .error (.serviceError _ _) => true
  | _ => false

end Aqua

namespace Singleton

/-- An object held in the `SingletonMeta` cache: its identity (allocation
number) together with the constructor arguments it was built from. -/
structure Instance where
  objId : Nat
  args : List String
deriving DecidableEq, Repr

/-- The state of `SingletonMeta`: the `_instances` cache (class name ↦
cached instance) plus the allocator giving fresh object identities. -/
structure MetaState where
  instances : List (String × Instance)
  nextId : Nat
deriving DecidableEq, Repr

/-- The empty cache at process start. -/
def initState : MetaState := { instances := [], nextId := 0 }

/-- `SingletonMeta.__call__` (`spark_session_singleton.py` lines 70-73):
construct and cache an instance on the first call for a class, and return
the cached instance unchanged — without constructing — on every later
call, whatever arguments are passed. -/
def callClass (s : MetaState) (cls : String) (args : List String) :
    Instance × MetaState :=
  match Serialize.lookupStr s.instances cls with
  | some inst => (inst, s)
  | none =>
    let inst : Instance := { objId := s.nextId, args := args }
    (inst, { instances := (cls, inst) :: s.instances, nextId := s.nextId + 1 })

end Singleton

namespace Serialize

/-- A `RetrievalQA` structure over a registered `FAISS` vector store. -/
def faissRQA : RetrievalQAObj :=
  { dictRepr := [("_type", .str "retrieval_qa")]
    retrieverFields := [("search_kwargs", .dict []), ("tags", .arr [])]
    vectorstoreClass := "FAISS"
    vectorstorePayload := .null }

/-- A `RetrievalQA` structure whose retriever sits on a vector store of an
unregistered class. -/
def chromaObj : RetrievalQAObj :=
  { dictRepr := [("_type", .str "retrieval_qa")]
    retrieverFields := [("search_kwargs", .dict []), ("tags", .arr [])]
    vectorstoreClass := "Chroma"
    vectorstorePayload := .null }

/-- A `GuardrailSequence` instance with some payload. -/
def gsObj : PyObj :=
  { ty := .guardrailSequence, payload := .str "guardrails"
    serializable := true, lcSerializable := true, hasSave := true
    nestedUnserializable := false, rqa := emptyRQA }

/-- An instance of a strict subclass of `RetrievalQA` whose exact class is
not a key of the save table, over a registered vector store. -/
def subObj : PyObj :=
  { ty := .retrievalQACustom, payload := .str "subclassed"
    serializable := true, lcSerializable := true, hasSave := false
    nestedUnserializable := false, rqa := faissRQA }

/-- Another instance of the `RetrievalQA` subclass, with every generic
fallback available to it. -/
def subObjFour : PyObj :=
  { ty := .retrievalQACustom, payload := .str "subclassed-lc"
    serializable := true, lcSerializable := true, hasSave := true
    nestedUnserializable := false, rqa := faissRQA }

/-- An object of an unrelated class with no serialization support at all. -/
def plainObj : PyObj :=
  { ty := .plainObject, payload := .str "plain"
    serializable := false, lcSerializable := false, hasSave := false
    nestedUnserializable := false, rqa := emptyRQA }

/-- A `RetrievalQA` instance (exact registered type) over the unregistered
`Chroma` vector store. -/
def rqaChromaPyObj : PyObj :=
  { ty := .retrievalQA, payload := .null
    serializable := true, lcSerializable := true, hasSave := false
    nestedUnserializable := false, rqa := chromaObj }

/-- A `RetrievalQA` instance (exact registered type) over the registered
`FAISS` vector store. -/
def faissPyObj : PyObj :=
  { ty := .retrievalQA, payload := .null
    serializable := true, lcSerializable := true, hasSave := false
    nestedUnserializable := false, rqa := faissRQA }

/-- A configuration tree whose root dict is untagged but which contains a
nested sub-dict tagged with the registered tag `retrieval_qa`. -/
def nestedTaggedTree : JVal :=
  .dict [("a", .dict [("_type", .str "retrieval_qa")])]

end Serialize

namespace Aqua

/-- A model with no freeform tags at all — in particular, no `OCI_AQUA`. -/
def untaggedModel : OciModel :=
  { id := "ocid1.datasciencemodel.oc1..untagged"
    compartment_id := "c1", project_id := "p1"
    display_name := "plain-model", time_created := "2024-01-01"
    freeform_tags := [], defined_tags := [] }

/-- An Aqua-tagged model living in compartment `c1`. -/
def taggedModel : OciModel :=
  { id := "ocid1.datasciencemodel.oc1..tagged"
    compartment_id := "c1", project_id := "p1"
    display_name := "aqua-model", time_created := "2024-01-02"
    freeform_tags := [("OCI_AQUA", "active")], defined_tags := [] }

/-- A search oracle answering the compartment-`c1` query with the tagged
model and any other query with nothing. -/
def searchC1 : String → Except SdkError (List OciModel) :=
  fun q => if q = rqsQuery "c1" then .ok [taggedModel] else .ok []

/-- A concrete SDK error. -/
def se500 : SdkError := { request_id := "req-1", code := 500 }

end Aqua

namespace Serialize

/-- `firstSaveMatch` misses exactly when the object is an instance of no
class in the table. -/
theorem firstSaveMatch_eq_none_iff
    (l : List (PyType × (PyObj → Except PyErr JVal))) (o : PyObj) :
    firstSaveMatch l o = none ↔ ∀ e ∈ l, isInstanceOf o.ty e.1 = false := by
  induction l with
  | nil => simp [firstSaveMatch]
  | cons e rest ih =>
    by_cases hm : isInstanceOf o.ty e.1 = true
    · simp [firstSaveMatch, hm]
    · simp only [Bool.not_eq_true] at hm
      simp [firstSaveMatch, hm, ih]

/-- A hit of `firstSaveMatch` is the first entry, in table order, whose
class the object is an instance of. -/
theorem firstSaveMatch_eq_some
    (l : List (PyType × (PyObj → Except PyErr JVal))) (o : PyObj)
    (e : PyType × (PyObj → Except PyErr JVal)) (h : firstSaveMatch l o = some e) :
    ∃ l1 l2, l = l1 ++ e :: l2 ∧ isInstanceOf o.ty e.1 = true ∧
      ∀ e' ∈ l1, isInstanceOf o.ty e'.1 = false := by
  induction l with
  | nil => simp [firstSaveMatch] at h
  | cons a rest ih =>
    by_cases hm : isInstanceOf o.ty a.1 = true
    · simp only [firstSaveMatch, hm, if_true, Option.some.injEq] at h
      exact ⟨[], rest, by rw [h]; rfl, by rw [← h]; exact hm, by simp⟩
    · simp only [Bool.not_eq_true] at hm
      simp only [firstSaveMatch, hm, Bool.false_eq_true, if_false] at h
      obtain ⟨l1, l2, hsplit, hinst, hmiss⟩ := ih h
      refine ⟨a :: l1, l2, by rw [hsplit]; rfl, hinst, ?_⟩
      intro e' he'
      rcases List.mem_cons.mp he' with he' | he'
      · rw [he']; exact hm
      · exact hmiss e' he'

/-- `_loadFields` loads every child value (`_load` is applied to each field
before the parent dict is revived). -/
theorem _loadFields_eq_map (fs : List (String × JVal)) :
    _loadFields fs = fs.map (fun kv => (kv.1, _load kv.2)) := by
  induction fs with
  | nil => rfl
  | cons kv rest ih => simp [_loadFields, ih]

/-- A hit in the left part of an appended association list stands. -/
theorem lookupStr_append_left {α : Type} (xs ys : List (String × α))
    (k : String) (v : α) (h : lookupStr xs k = some v) :
    lookupStr (xs ++ ys) k = some v := by
  induction xs with
  | nil => simp [lookupStr] at h
  | cons e rest ih =>
    by_cases he : e.1 = k
    · simpa [lookupStr, he] using h
    · simp only [lookupStr, he, if_false] at h
      simpa [lookupStr, he] using ih h

/-- A miss in the left part of an appended association list defers to the
right part. -/
theorem lookupStr_append_right {α : Type} (xs ys : List (String × α))
    (k : String) (h : lookupStr xs k = none) :
    lookupStr (xs ++ ys) k = lookupStr ys k := by
  induction xs with
  | nil => rfl
  | cons e rest ih =>
    by_cases he : e.1 = k
    · simp [lookupStr, he] at h
    · simp only [lookupStr, he, if_false] at h
      simpa [lookupStr, he] using ih h

/-- `popKey` over a cons either drops the head or keeps it. -/
theorem popKey_cons {α : Type} (e : String × α) (rest : List (String × α))
    (A : String) :
    popKey (e :: rest) A =
      if e.1 = A then popKey rest A else e :: popKey rest A := by
  by_cases he : e.1 = A <;> simp [popKey, List.filter_cons, he]

/-- After popping a key, it can no longer be looked up. -/
theorem lookupStr_popKey_self {α : Type} (fs : List (String × α))
    (A : String) : lookupStr (popKey fs A) A = none := by
  induction fs with
  | nil => rfl
  | cons e rest ih =>
    rw [popKey_cons]
    by_cases he : e.1 = A
    · rw [if_pos he]
      exact ih
    · rw [if_neg he]
      simp [lookupStr, he, ih]

/-- Popping one key leaves lookups of any other key unchanged. -/
theorem lookupStr_popKey_ne {α : Type} (fs : List (String × α))
    (k A : String) (h : k ≠ A) :
    lookupStr (popKey fs A) k = lookupStr fs k := by
  induction fs with
  | nil => rfl
  | cons e rest ih =>
    rw [popKey_cons]
    by_cases he : e.1 = A
    · have hek : e.1 ≠ k := by
        rw [he]
        exact Ne.symm h
      rw [if_pos he, ih]
      simp [lookupStr, hek]
    · rw [if_neg he]
      simp [lookupStr, ih]

/-- Popping an absent key is the identity. -/
theorem popKey_of_lookupStr_none {α : Type} (fs : List (String × α))
    (A : String) (h : lookupStr fs A = none) : popKey fs A = fs := by
  induction fs with
  | nil => rfl
  | cons e rest ih =>
    by_cases he : e.1 = A
    · simp [lookupStr, he] at h
    · simp only [lookupStr, he, if_false] at h
      rw [popKey_cons, if_neg he, ih h]

/-- `popKey` distributes over append. -/
theorem popKey_append {α : Type} (xs ys : List (String × α)) (A : String) :
    popKey (xs ++ ys) A = popKey xs A ++ popKey ys A := by
  simp [popKey, List.filter_append]

/-- `popKey` is idempotent. -/
theorem popKey_popKey_self {α : Type} (fs : List (String × α)) (A : String) :
    popKey (popKey fs A) A = popKey fs A :=
  popKey_of_lookupStr_none _ _ (lookupStr_popKey_self fs A)

/-- Looking up the key just set yields the value set. -/
theorem lookupStr_setStr_self {α : Type} (fs : List (String × α))
    (K : String) (v : α) : lookupStr (setStr fs K v) K = some v := by
  rw [setStr, lookupStr_append_right _ _ _ (lookupStr_popKey_self fs K)]
  simp [lookupStr]

/-- Setting one key leaves lookups of any other key unchanged. -/
theorem lookupStr_setStr_ne {α : Type} (fs : List (String × α))
    (k K : String) (v : α) (h : k ≠ K) :
    lookupStr (setStr fs K v) k = lookupStr fs k := by
  rw [setStr]
  rcases hx : lookupStr (popKey fs K) k with _ | w
  · rw [lookupStr_append_right _ _ _ hx]
    rw [lookupStr_popKey_ne _ _ _ h] at hx
    simp [lookupStr, Ne.symm h, hx]
  · rw [lookupStr_append_left _ _ _ _ hx]
    rw [lookupStr_popKey_ne _ _ _ h] at hx
    exact hx.symm

/-- The saved tree of a `RetrievalQA` keeps the `_type` tag of
`obj.dict()`. -/
theorem lookupStr_rqaSaved_type (r : RetrievalQAObj)
    (hT : lookupStr r.dictRepr "_type" = some (.str tagRetrievalQA)) :
    lookupStr (rqaSaved r) "_type" = some (.str tagRetrievalQA) := by
  rw [rqaSaved, lookupStr_setStr_ne _ _ _ _ (by decide),
    lookupStr_setStr_ne _ _ _ _ (by decide), hT]

/-- On the tree `RetrievalQASerializer.save` produced for a registered
vector-store class, `RetrievalQASerializer.load` succeeds and hands the
external legacy chain loader the saved chain configuration (the dict minus
`retriever_kwargs` and `vectordb`), the vector-store class, the
vector-store configuration and the retriever kwargs, all unchanged. -/
theorem rqa_load_rqaSaved (r : RetrievalQAObj)
    (hmem : r.vectorstoreClass ∈ vectordb_serialization) :
    RetrievalQASerializer_load (.dict (rqaSaved r)) =
      .ok (.legacyChainRetriever
        (popKey (popKey r.dictRepr "retriever_kwargs") "vectordb")
        r.vectorstoreClass (rqaVectordbConfig r) (rqaRetrieverKwargs r)) := by
  have hbase : lookupStr (popKey (popKey r.dictRepr "retriever_kwargs")
      "vectordb") "retriever_kwargs" = none := by
    rw [lookupStr_popKey_ne _ _ _ (by decide)]
    exact lookupStr_popKey_self _ _
  have hA : lookupStr (rqaSaved r) "retriever_kwargs" =
      some (rqaRetrieverKwargs r) := by
    rw [rqaSaved, lookupStr_setStr_ne _ _ _ _ (by decide),
      lookupStr_setStr_self]
  have hpop : popKey (rqaSaved r) "retriever_kwargs" =
      popKey (popKey r.dictRepr "retriever_kwargs") "vectordb" ++
        [("vectordb", rqaVectordbConfig r)] := by
    rw [rqaSaved, setStr, setStr, popKey_append, popKey_append,
      popKey_append]
    rw [popKey_of_lookupStr_none _ _ hbase]
    simp [popKey]
  have hB : lookupStr (popKey (rqaSaved r) "retriever_kwargs") "vectordb" =
      some (rqaVectordbConfig r) := by
    rw [hpop, lookupStr_append_right _ _ _ (lookupStr_popKey_self _ _)]
    simp [lookupStr]
  have hfinal : popKey (popKey (rqaSaved r) "retriever_kwargs") "vectordb" =
      popKey (popKey r.dictRepr "retriever_kwargs") "vectordb" := by
    rw [hpop, popKey_append, popKey_popKey_self]
    simp [popKey]
  simp only [RetrievalQASerializer_load, hA, hB, rqaVectordbConfig,
    lookupStr, if_pos rfl, hmem, if_true, hfinal]

/-- Counterexample to C1: `RetrievalQA` is a registered type, yet saving
the `RetrievalQA` instance over an unregistered `Chroma` vector store
raises `KeyError`, so `load(dump(obj))` reconstructs nothing at all for
it — the round trip does not hold for every object of a registered
type. -/
theorem c1_counterexample :
    PyType.retrievalQA ∈ registeredTypes ∧
    dump rqaChromaPyObj = .error PyErr.keyError :=
  ⟨by decide, rfl⟩

/-- Claim C1 as amended: for every object of one of the three fully
spec-modelled registered types, `load(dump obj)` reconstructs a
structurally equal object (structural, not identity-based equivalence).
For `RetrievalQA`, `dump` raises `KeyError` whenever the retriever's
vector-store class is not registered in `vectordb_serialization`; when it
is registered (and `obj.dict()` carries its `retrieval_qa` type tag, as
LangChain guarantees), `dump` succeeds, `load` dispatches the saved tree
back to the registered `RetrievalQA` deserializer, and that deserializer
succeeds, delegating reconstruction to the external legacy chain loader
with the saved chain configuration, vector-store class and configuration,
and retriever kwargs handed back unchanged. -/
theorem c1_amended_roundtrip (o : PyObj) :
    (o.ty = .guardrailSequence ∨ o.ty = .customGuardrailBase ∨
        o.ty = .runnableParallel →
      ∃ saved o', dump o = .ok (.custom o.ty saved) ∧
        (∃ tag, load saved = .registered tag (.ok (.obj o'))) ∧
        structEq o' o) ∧
    (o.ty = .retrievalQA →
      (o.rqa.vectorstoreClass ∉ vectordb_serialization →
        dump o = .error .keyError) ∧
      (o.rqa.vectorstoreClass ∈ vectordb_serialization →
        lookupStr o.rqa.dictRepr "_type" = some (.str tagRetrievalQA) →
        dump o = .ok (.custom .retrievalQA (.dict (rqaSaved o.rqa))) ∧
        load (.dict (rqaSaved o.rqa)) =
          .registered tagRetrievalQA
            (RetrievalQASerializer_load (.dict (rqaSaved o.rqa))) ∧
        RetrievalQASerializer_load (.dict (rqaSaved o.rqa)) =
          .ok (.legacyChainRetriever
            (popKey (popKey o.rqa.dictRepr "retriever_kwargs") "vectordb")
            o.rqa.vectorstoreClass (rqaVectordbConfig o.rqa)
            (rqaRetrieverKwargs o.rqa)))) := by
  obtain ⟨ty, p, s, l, hs, n, r⟩ := o
  constructor
  · rintro (h | h | h) <;> subst h <;> exact ⟨_, _, rfl, ⟨_, rfl⟩, rfl, rfl⟩
  · intro hty
    subst hty
    constructor
    · intro hnot
      simp [dump, firstSaveMatch, custom_serialization, isInstanceOf,
        RetrievalQASerializer_save, Except.map, hnot]
    · intro hmem hT
      refine ⟨?_, ?_, rqa_load_rqaSaved r hmem⟩
      · simp [dump, firstSaveMatch, custom_serialization, isInstanceOf,
          RetrievalQASerializer_save, Except.map, hmem]
      · have htag := lookupStr_rqaSaved_type r hT
        have htable : lookupStr custom_deserialization tagRetrievalQA =
            some RetrievalQASerializer_load := rfl
        simp [load, htag, htable]

/-- Witness for the amended C1 at the concrete `FAISS`-backed
`RetrievalQA` instance: saving succeeds with the saved tree. -/
theorem c1_amended_roundtrip_witness :
    dump faissPyObj = .ok (.custom .retrievalQA (.dict (rqaSaved faissPyObj.rqa))) :=
  (((c1_amended_roundtrip faissPyObj).2 rfl).2 (by decide) rfl).1

/-- Counterexample to C2: `subObj` is an instance of a strict subclass of
`RetrievalQA`, its exact class is not a key of `custom_serialization`, yet
`dump` hands it to the registered `RetrievalQA` entry's save function — the
dispatch is by `isinstance`, not by exact type. -/
theorem c2_counterexample :
    PyType.retrievalQACustom ∉ registeredTypes ∧
    dump subObj = Except.map (Dumped.custom .retrievalQA)
      (RetrievalQASerializer_save subObj.rqa) ∧
    dumpIsCustom (dump subObj) = true :=
  ⟨by decide, rfl, by decide⟩

/-- Claim C2 as amended: the save dispatch of `dump` selects, by
`isinstance` check in table order, the first entry whose class the object
is an instance of (so an instance of a subclass of a registered type is
dispatched to that type's entry); only an object that is an instance of no
registered class is handled by no entry. -/
theorem c2_amended_isinstance_dispatch (o : PyObj) :
    (firstSaveMatch custom_serialization o = none ↔
      ∀ e ∈ custom_serialization, isInstanceOf o.ty e.1 = false) ∧
    (∀ e, firstSaveMatch custom_serialization o = some e →
      dump o = Except.map (Dumped.custom e.1) (e.2 o) ∧
      ∃ l1 l2, custom_serialization = l1 ++ e :: l2 ∧
        isInstanceOf o.ty e.1 = true ∧
        ∀ e' ∈ l1, isInstanceOf o.ty e'.1 = false) := by
  refine ⟨firstSaveMatch_eq_none_iff custom_serialization o, ?_⟩
  intro e he
  refine ⟨by simp [dump, he], firstSaveMatch_eq_some custom_serialization o e he⟩

/-- Witness for the amended C2: the `RetrievalQA` subclass instance is
dispatched to the registered `RetrievalQA` save entry. -/
theorem c2_amended_isinstance_dispatch_witness :
    dump subObj = Except.map (Dumped.custom PyType.retrievalQA)
      (RetrievalQASerializer_save subObj.rqa) :=
  ((c2_amended_isinstance_dispatch subObj).2
    (.retrievalQA, fun o => RetrievalQASerializer_save o.rqa) rfl).1

/-- Counterexample to C4: `subObjFour`'s exact class is not registered in
`custom_serialization`, yet `dump` neither falls back to a generic
serializer (`to_json` or the legacy save path) nor raises `TypeError`: the
`isinstance` dispatch hands it to the registered `RetrievalQA` entry. -/
theorem c4_counterexample :
    PyType.retrievalQACustom ∉ registeredTypes ∧
    dumpIsGenericFallback (dump subObjFour) = false ∧
    dumpIsTypeError (dump subObjFour) = false ∧
    dumpIsCustom (dump subObjFour) = true :=
  ⟨by decide, by decide, by decide, by decide⟩

/-- Claim C4 as amended: for every object that is an instance of no
registered class (so the `isinstance` dispatch misses), `dump` falls back
to the legacy save-to-temp-JSON path for a `Serializable` that is not
lc-serializable but has `save`, else to `to_json` via `default` for an
lc-serializable object, else again to the legacy path when the `to_json`
encoding raises `TypeError` on a nested property and the object is a
`Serializable` with `save`; and it raises `TypeError` exactly when none of
these fallbacks applies. -/
theorem c4_amended_fallbacks (o : PyObj)
    (h : firstSaveMatch custom_serialization o = none) :
    dump o =
      (if o.serializable && !o.lcSerializable && o.hasSave then
        .ok (.legacy o)
      else if o.serializable && o.lcSerializable && !o.nestedUnserializable then
        .ok (.toJson o)
      else if o.serializable && o.hasSave then .ok (.legacy o)
      else .error .typeError) ∧
    (dump o = .error PyErr.typeError ↔
      (o.serializable && o.lcSerializable && !o.nestedUnserializable
        || o.serializable && o.hasSave) = false) := by
  obtain ⟨ty, p, s, l, hs, n⟩ := o
  cases s <;> cases l <;> cases hs <;> cases n <;>
    simp [dump, json_dumps, default, h]

/-- Witness for the amended C4 at an object with no serialization support:
`dump` raises `TypeError`. -/
theorem c4_amended_fallbacks_witness :
    dump plainObj = .error PyErr.typeError :=
  ((c4_amended_fallbacks plainObj rfl).1).trans rfl

/-- Claim C5: a dict whose `_type` value is not a key of
`custom_deserialization` is passed whole to the generic legacy loader
`load_chain_from_config` — no unregistered-tag error is raised. -/
theorem c5_unregistered_tag_legacy (fs : List (String × JVal)) (tag : String)
    (h1 : lookupStr fs "_type" = some (.str tag))
    (h2 : lookupStr custom_deserialization tag = none) :
    load (.dict fs) = .legacyChain (.dict fs) := by
  simp [load, h1, h2]

/-- Witness for C5 at a legacy chain configuration tagged `llm_chain`. -/
theorem c5_unregistered_tag_legacy_witness :
    load (.dict [("_type", .str "llm_chain")]) =
      .legacyChain (.dict [("_type", .str "llm_chain")]) :=
  c5_unregistered_tag_legacy [("_type", .str "llm_chain")] "llm_chain" rfl rfl

/-- Counterexample to C6: `nestedTaggedTree` is a nested configuration tree
whose sub-dict carries the registered tag `retrieval_qa`, yet `load` hands
the whole tree unchanged to the external LangChain loader and no registered
deserializer is applied anywhere in the result — nested tagged sub-objects
are not recursively resolved before the parent. -/
theorem c6_counterexample :
    (lookupStr custom_deserialization tagRetrievalQA).isSome = true ∧
    load nestedTaggedTree = .lcLoad nestedTaggedTree ∧
    hasRegistered (load nestedTaggedTree) = false :=
  ⟨rfl, rfl, rfl⟩

/-- Claim C6 as amended: bottom-up reconstruction is implemented only in
the helper `_load` defined inside `load` — on an untagged dict it loads
every child value and only then applies the reviver to the parent — but
`load` never invokes the helper: a tree whose root dict has no `_type` is
delegated unchanged to the external LangChain loader, so nested tagged
sub-objects are not resolved by the registry. -/
theorem c6_amended_helper_unused (fs : List (String × JVal))
    (h : lookupStr fs "_type" = none) :
    load (.dict fs) = .lcLoad (.dict fs) ∧
    _load (.dict fs) = .revived (_loadFields fs) ∧
    _loadFields fs = fs.map (fun kv => (kv.1, _load kv.2)) :=
  ⟨by simp [load, h], by simp [_load, h], _loadFields_eq_map fs⟩

/-- Witness for the amended C6 at a one-field untagged dict. -/
theorem c6_amended_helper_unused_witness :
    load (.dict [("b", .num 1)]) = .lcLoad (.dict [("b", .num 1)]) :=
  (c6_amended_helper_unused [("b", .num 1)] rfl).1

/-- Claim C10: in `RetrievalQASerializer.save`, the explicit
`NotImplementedError` branch for an unregistered vector-store class is
unreachable: the indexing of `vectordb_serialization` raises `KeyError`
before the membership check for every unregistered class, and no input at
all makes the function raise `NotImplementedError`. -/
theorem c10_unreachable_branch (obj : RetrievalQAObj) :
    (obj.vectorstoreClass ∉ vectordb_serialization →
      RetrievalQASerializer_save obj = .error .keyError) ∧
    RetrievalQASerializer_save obj ≠ .error .notImplementedError := by
  constructor
  · intro h
    simp [RetrievalQASerializer_save, h]
  · by_cases h : obj.vectorstoreClass ∈ vectordb_serialization
    · simp [RetrievalQASerializer_save, h]
    · simp [RetrievalQASerializer_save, h]

/-- Witness for C10 at a `RetrievalQA` over an unregistered `Chroma` vector
store: saving raises `KeyError`. -/
theorem c10_unreachable_branch_witness :
    RetrievalQASerializer_save chromaObj = .error .keyError :=
  (c10_unreachable_branch chromaObj).1 (by decide)

end Serialize

namespace Aqua

/-- Claim C3, evaluated at the failing input: the untagged model fails
`_if_show` and `get` duly raises the client error for it, but `list`
(here on the service-model path) still returns its summary — `list` never
consults `_if_show`, contradicting the claim and `_if_show`'s own
docstring ("Determine if the given model should be return by `list`"). -/
theorem c3_list_includes_untagged_model :
    _if_show untaggedModel = false ∧
    list (fun _ => .ok []) [untaggedModel] "r1" none none =
      .ok [process_model untaggedModel "r1" UNKNOWN] ∧
    (get (fun _ => .ok untaggedModel) (fun _ => "card") "r1"
        untaggedModel.id).1 =
      .error (.clientError
        ("Target model " ++ untaggedModel.id ++ " is not Aqua model.")) :=
  ⟨rfl, rfl, rfl⟩

/-- Claim C7: with a non-empty compartment filter `c`, the structured
query `_rqs` sends contains the condition `compartmentId = 'c'`, and —
assuming the SDK answers that query only with resources of compartment
`c` — every summary `list` returns belongs to compartment `c`. -/
theorem c7_compartment_filter
    (search : String → Except SdkError (List OciModel))
    (service_models : List OciModel) (region c : String) (hc : c ≠ "")
    (project_id : Option String) (rs : List OciModel)
    (hok : search (rqsQuery c) = .ok rs)
    (hmatch : ∀ m ∈ rs, m.compartment_id = c) :
    (∃ pre post, rqsQuery c =
      pre ++ ("compartmentId = " ++ squote ++ c ++ squote) ++ post) ∧
    list search service_models region (some c) project_id =
      .ok (rs.map (fun m => process_model m region (orUnknown project_id))) ∧
    ∀ s ∈ rs.map (fun m => process_model m region (orUnknown project_id)),
      s.compartment_id = c := by
  refine ⟨⟨"query datasciencemodel resources where (",
    " " ++ condition_lifecycle ++ " " ++ condition_tags ++ ")", ?_⟩, ?_, ?_⟩
  · have hlit : ("query datasciencemodel resources where (compartmentId = " : String) =
        "query datasciencemodel resources where (" ++ "compartmentId = " := rfl
    simp only [rqsQuery, hlit, String.append_assoc]
  · simp [list, _rqs, hok, hc]
  · intro s hs
    obtain ⟨m, hm, rfl⟩ := List.mem_map.mp hs
    simpa [process_model] using hmatch m hm

set_option maxRecDepth 8000 in
/-- Witness for C7: the single summary returned for the `c1` query sits in
compartment `c1`. -/
theorem c7_compartment_filter_witness :
    (process_model taggedModel "r1" UNKNOWN).compartment_id = "c1" := by
  have h := c7_compartment_filter searchC1 [] "r1" "c1" (by decide) none
    [taggedModel] (by simp [searchC1]) (by decide)
  exact h.2.2 (process_model taggedModel "r1" UNKNOWN)
    (List.mem_singleton.mpr rfl)

/-- Claim C8: an SDK exception inside `get`, `_rqs` or `create` is caught
and re-raised as one of the fixed HTTP-status-tagged Aqua exception kinds
(a service error carrying the SDK status code), and no retry is attempted:
`get` and `_rqs` issue exactly one SDK call, `create` performs each of its
operations at most once (its trace has no duplicates), and every
termination of `create` is a success or a wrapped service error. -/
theorem c8_sdk_errors_wrapped (se : SdkError) (mid : String)
    (model_card_of : String → String) (region : String)
    (get_model : String → Except SdkError OciModel)
    (search : String → Except SdkError (List OciModel)) (c : String)
    (from_id : Except SdkError DSModel) (download : Except SdkError Unit)
    (create_res : Except SdkError DSModel) (pid : String)
    (cid : Option String) (envc envp : String) :
    ((get (fun _ => .error se) model_card_of region mid).1 =
        .error (.serviceError se.request_id se.code) ∧
      AquaExc.status (.serviceError se.request_id se.code) = se.code ∧
      (get get_model model_card_of region mid).2.length = 1) ∧
    ((search (rqsQuery c) = .error se →
        (_rqs search c).1 = .error (.serviceError se.request_id se.code)) ∧
      (_rqs search c).2.length = 1) ∧
    ((from_id = .error se →
        (create from_id download create_res mid pid cid envc envp).1 =
          .error (.serviceError se.request_id se.code)) ∧
      okOrServiceError
        (create from_id download create_res mid pid cid envc envp).1 = true ∧
      ((create from_id download create_res mid pid cid envc envp).2).Nodup) := by
  refine ⟨⟨rfl, rfl, rfl⟩, ⟨?_, rfl⟩, ?_, ?_, ?_⟩
  · intro h
    simp [_rqs, h]
  · intro h
    subst h
    rfl
  · rcases from_id with se1 | target
    · rfl
    · by_cases hcond : (target.compartment_id == targetCompartment cid envc
          && target.project_id == targetProject pid envp) = true
      · simp [create, okOrServiceError, hcond]
      · rcases download with se2 | u
        · simp [create, okOrServiceError, hcond]
        · rcases create_res with se3 | cm <;>
            simp [create, okOrServiceError, hcond]
  · rcases from_id with se1 | target
    · simp [create]
    · by_cases hcond : (target.compartment_id == targetCompartment cid envc
          && target.project_id == targetProject pid envp) = true
      · simp [create, hcond]
      · rcases download with se2 | u
        · simp [create, hcond]
        · rcases create_res with se3 | cm <;> simp [create, hcond]

/-- Witness for C8: a failing `get_model` call surfaces as the service
error with the SDK's status code. -/
theorem c8_sdk_errors_wrapped_witness :
    (get (fun _ => .error se500) (fun _ => "") "r1" "m1").1 =
      .error (.serviceError "req-1" 500) :=
  ((c8_sdk_errors_wrapped se500 "m1" (fun _ => "") "r1"
      (fun _ => .error se500) (fun _ => .error se500) "c2" (.error se500)
      (.ok ()) (.error se500) "p1" none "ec" "ep").1).1

end Aqua

namespace Singleton

/-- Claim C9: for a class under `SingletonMeta`, the first constructor call
creates the single instance (one fresh allocation), every subsequent call
returns that same instance without running construction again and without
touching the cache, whatever arguments are passed later. -/
theorem c9_singleton_cache (s : MetaState) (cls : String)
    (args1 args2 : List String)
    (h : Serialize.lookupStr s.instances cls = none) :
    (callClass s cls args1).1 = { objId := s.nextId, args := args1 } ∧
    (callClass s cls args1).2.nextId = s.nextId + 1 ∧
    callClass (callClass s cls args1).2 cls args2 =
      ((callClass s cls args1).1, (callClass s cls args1).2) ∧
    ∀ s' i args', Serialize.lookupStr s'.instances cls = some i →
      callClass s' cls args' = (i, s') := by
  refine ⟨by simp [callClass, h], by simp [callClass, h], ?_, ?_⟩
  · simp [callClass, h, Serialize.lookupStr]
  · intro s' i args' h'
    simp [callClass, h']

/-- Witness for C9: starting from the empty cache, the second call with
different arguments returns the instance of the first call and leaves the
state unchanged. -/
theorem c9_singleton_cache_witness :
    callClass (callClass initState "SparkSessionSingleton" ["metastore-a"]).2
        "SparkSessionSingleton" ["metastore-b"] =
      ((callClass initState "SparkSessionSingleton" ["metastore-a"]).1,
       (callClass initState "SparkSessionSingleton" ["metastore-a"]).2) :=
  (c9_singleton_cache initState "SparkSessionSingleton" ["metastore-a"]
    ["metastore-b"] rfl).2.2.1

end Singleton
